import Mathlib

/-!
Verification of the token-lifecycle manager of `AgentMemoryClient`
(src/examples/python-client.py).

Shallow embedding conventions:
* Python's mutable `self` becomes explicit state passing over `ClientState`.
* `time.time()` becomes an explicit `now : Int` argument, frozen for the
  duration of one method call.
* Network I/O becomes an oracle argument: the response the server would
  return if the method performs that call.  Each method also reports the
  list of network calls it actually made (`NetCall`), so "zero network
  calls" claims are expressible.
* A Python method that can `raise` returns a `MethodResult`: the state
  after the call (Python state survives an exception), an
  `Except String α` for the raised message or the returned value, and the
  network calls made.
-/

/-- Credential state of `AgentMemoryClient` (fields set in `__init__`,
lines 18-22 of python-client.py). -/
structure ClientState where
  base_url : String
  access_token : Option String
  refresh_token : Option String
  token_expires_at : Int
  deriving DecidableEq, Repr

/-- Model of `AgentMemoryClient.__init__`: tokens absent, expiry 0. -/
def ClientState.init (base_url : String) : ClientState :=
  { base_url := base_url, access_token := none, refresh_token := none,
    token_expires_at := 0 }

/-- Response offered by the server to `POST /auth/login`.  The data fields
are meaningful only when `status = 200` (the code only parses the body
then); `text` is the error body used in the failure message. -/
structure LoginResp where
  status : Nat
  text : String
  access_token : String
  refresh_token : String
  expires_in : Int
  refresh_expires_in : Int
  username : String
  deriving DecidableEq, Repr

/-- Response offered by the server to `POST /auth/token/refresh`. -/
structure RefreshResp where
  status : Nat
  text : String
  access_token : String
  refresh_token : String
  expires_in : Int
  deriving DecidableEq, Repr

/-- Network calls a method can make, recording the refresh token sent
where one is sent in the request body. -/
inductive NetCall where
  | loginCall : NetCall
  | refreshCall (sent_refresh_token : String) : NetCall
  | revokeCall (sent_refresh_token : String) : NetCall
  deriving DecidableEq, Repr

/-- Result of one Python method call: post-state, returned value or
raised message, and the network calls made. -/
structure MethodResult (α : Type) where
  state : ClientState
  result : Except String α
  calls : List NetCall
  deriving Repr

/-- Python string interpolation of an `Optional[str]` (`None` prints as
`"None"`). -/
def pyStr : Option String → String
  | none => "None"
  | some t => t

/-- Model of `AgentMemoryClient.login` (lines 24-52): POST /auth/login; on
non-200 raise `"Login failed: ..."` without touching state; on 200 store
both tokens and `token_expires_at = now + expires_in`. -/
def login (s : ClientState) (now : Int) (resp : LoginResp) :
    MethodResult Unit :=
  if resp.status ≠ 200 then
    ⟨s, .error ("Login failed: " ++ resp.text), [.loginCall]⟩
  else
    ⟨{ s with access_token := some resp.access_token,
              refresh_token := some resp.refresh_token,
              token_expires_at := now + resp.expires_in },
      .ok (), [.loginCall]⟩

/-- Model of `AgentMemoryClient.refresh_access_token` (lines 54-78): raise
locally (no network call) without a refresh token; otherwise POST the
current refresh token; on non-200 raise `"Token refresh failed: ..."`
without touching state; on 200 store both new tokens (rotation) and
`token_expires_at = now + expires_in`. -/
def refresh_access_token (s : ClientState) (now : Int)
    (resp : RefreshResp) : MethodResult Unit :=
  match s.refresh_token with
  | none => ⟨s, .error "No refresh token available", []⟩
  | some rt =>
    if resp.status ≠ 200 then
      ⟨s, .error ("Token refresh failed: " ++ resp.text),
        [.refreshCall rt]⟩
    else
      ⟨{ s with access_token := some resp.access_token,
                refresh_token := some resp.refresh_token,
                token_expires_at := now + resp.expires_in },
        .ok (), [.refreshCall rt]⟩

/-- The refresh condition of `_ensure_authenticated` (line 82):
`not self.access_token or time.time() >= self.token_expires_at`. -/
def needsRefresh (s : ClientState) (now : Int) : Prop :=
  s.access_token = none ∨ now ≥ s.token_expires_at

instance (s : ClientState) (now : Int) : Decidable (needsRefresh s now) := by
  unfold needsRefresh; infer_instance

/-- Model of `AgentMemoryClient._ensure_authenticated` (lines 80-83): refresh
when the access token is absent or expired, else do nothing. -/
def ensure_authenticated (s : ClientState) (now : Int)
    (resp : RefreshResp) : MethodResult Unit :=
  if needsRefresh s now then refresh_access_token s now resp
  else ⟨s, .ok (), []⟩

/-- Model of `AgentMemoryClient._get_headers` (lines 85-91): ensure
authentication (propagating its exception unchanged), then return the
header dict bearing the current access token.  This is the spec's
`ensure_valid()`. -/
def get_headers (s : ClientState) (now : Int) (resp : RefreshResp) :
    MethodResult (List (String × String)) :=
  let r := ensure_authenticated s now resp
  match r.result with
  | .error e => ⟨r.state, .error e, r.calls⟩
  | .ok _ =>
    ⟨r.state,
      .ok [("Content-Type", "application/json"),
           ("Authorization", "Bearer " ++ pyStr r.state.access_token)],
      r.calls⟩

/-- Model of `AgentMemoryClient.logout` (lines 156-173): no-op without a refresh
token; otherwise obtain headers (which may itself refresh, or raise —
the Python call `self._get_headers()` is evaluated before the revoke
request is sent), POST the revoke with the then-current refresh token,
ignore its status, and clear both tokens. -/
def logout (s : ClientState) (now : Int) (rResp : RefreshResp)
    (revokeStatus : Nat) : MethodResult Unit :=
  match s.refresh_token with
  | none => ⟨s, .ok (), []⟩
  | some _ =>
    let h := get_headers s now rResp
    match h.result with
    | .error e => ⟨h.state, .error e, h.calls⟩
    | .ok _ =>
      ⟨{ h.state with access_token := none, refresh_token := none },
        .ok (),
        h.calls ++ [.revokeCall (pyStr h.state.refresh_token)]⟩

/-- One operation of a call sequence against the client, carrying its
call time and the server responses its network calls would receive. -/
inductive Op where
  | opLogin (now : Int) (resp : LoginResp) : Op
  | opRefresh (now : Int) (resp : RefreshResp) : Op
  | opEnsureValid (now : Int) (resp : RefreshResp) : Op
  | opLogout (now : Int) (rResp : RefreshResp) (revokeStatus : Nat) : Op
  deriving DecidableEq, Repr

/-- Execute one operation: the post-state (Python state survives a
raised exception) and the network calls made. -/
def step (s : ClientState) : Op → ClientState × List NetCall
  | .opLogin now resp =>
    let r := login s now resp; (r.state, r.calls)
  | .opRefresh now resp =>
    let r := refresh_access_token s now resp; (r.state, r.calls)
  | .opEnsureValid now resp =>
    let r := get_headers s now resp; (r.state, r.calls)
  | .opLogout now rResp revokeStatus =>
    let r := logout s now rResp revokeStatus; (r.state, r.calls)

/-- Run a sequence of operations, accumulating all network calls. -/
def run (s : ClientState) : List Op → ClientState × List NetCall
  | [] => (s, [])
  | op :: rest =>
    let r := step s op
    let r2 := run r.1 rest
    (r2.1, r.2 ++ r2.2)

/-!
Concurrency model for `_ensure_authenticated`.  The Python code has no
lock, so two threads running `_ensure_authenticated` against the same
client interleave.  Granting the code the *coarsest* plausible
atomicity, each thread takes at most two atomic steps: (1) evaluate the
refresh condition of line 82; (2) if it held, run the whole of
`refresh_access_token` (network exchange plus state update) atomically.
A schedule is the list of thread identifiers in execution order.
-/

/-- Program counter of one thread running `_ensure_authenticated`. -/
inductive Pc where
  | start : Pc
  | needRefreshPc : Pc
  | donePc : Pc
  deriving DecidableEq, Repr

/-- Shared state of two threads concurrently inside
`_ensure_authenticated`, plus a count of network refresh exchanges
performed so far. -/
structure ConcState where
  client : ClientState
  pc1 : Pc
  pc2 : Pc
  refreshCalls : Nat
  deriving DecidableEq, Repr

/-- One atomic step of one thread (`now` and the server's refresh
response are shared). -/
def threadStep (now : Int) (resp : RefreshResp) (c : ClientState)
    (pc : Pc) (calls : Nat) : ClientState × Pc × Nat :=
  match pc with
  | .start =>
    if needsRefresh c now then (c, .needRefreshPc, calls)
    else (c, .donePc, calls)
  | .needRefreshPc =>
    let r := refresh_access_token c now resp
    (r.state, .donePc, calls + r.calls.length)
  | .donePc => (c, .donePc, calls)

/-- Step the thread named by `tid` (`false` = thread 1, `true` =
thread 2). -/
def schedStep (now : Int) (resp : RefreshResp) (cs : ConcState)
    (tid : Bool) : ConcState :=
  if tid then
    let r := threadStep now resp cs.client cs.pc2 cs.refreshCalls
    { cs with client := r.1, pc2 := r.2.1, refreshCalls := r.2.2 }
  else
    let r := threadStep now resp cs.client cs.pc1 cs.refreshCalls
    { cs with client := r.1, pc1 := r.2.1, refreshCalls := r.2.2 }

/-- Run a schedule of thread steps from both threads at `start`. -/
def runConc (s : ClientState) (now : Int) (resp : RefreshResp)
    (sched : List Bool) : ConcState :=
  sched.foldl (schedStep now resp)
    { client := s, pc1 := .start, pc2 := .start, refreshCalls := 0 }

/-- The claim that concurrent `ensure_valid` calls perform at most one
network refresh exchange, under every interleaving. -/
def atMostOneRefreshProp (s : ClientState) (now : Int)
    (resp : RefreshResp) : Prop :=
  ∀ sched : List Bool, (runConc s now resp sched).refreshCalls ≤ 1

/-- A response environment avoids the string `t` when no server response
offered to the operation carries `t` as its (new) refresh token.  This
models the server-side rotation guarantee: a consumed refresh token is
invalidated and never re-issued. -/
def respAvoids (t : String) : Op → Prop
  | .opLogin _ resp => resp.refresh_token ≠ t
  | .opRefresh _ resp => resp.refresh_token ≠ t
  | .opEnsureValid _ resp => resp.refresh_token ≠ t
  | .opLogout _ rResp _ => rResp.refresh_token ≠ t

instance (t : String) (op : Op) : Decidable (respAvoids t op) :=
  match op with
  | .opLogin _ resp => inferInstanceAs (Decidable (resp.refresh_token ≠ t))
  | .opRefresh _ resp => inferInstanceAs (Decidable (resp.refresh_token ≠ t))
  | .opEnsureValid _ resp =>
    inferInstanceAs (Decidable (resp.refresh_token ≠ t))
  | .opLogout _ rResp _ =>
    inferInstanceAs (Decidable (rResp.refresh_token ≠ t))

/-- The two tokens are present or absent together. -/
def tokensTogether (s : ClientState) : Prop :=
  s.access_token.isSome = s.refresh_token.isSome

instance (s : ClientState) : Decidable (tokensTogether s) :=
  inferInstanceAs (Decidable (_ = _))

example :
    (refresh_access_token (ClientState.init "u") 0
      ⟨200, "", "a", "r", 60⟩).result
      = Except.error "No refresh token available" := by rfl

example :
    (get_headers ⟨"u", some "a1", some "r1", 10⟩ 3
      ⟨200, "", "a2", "r2", 60⟩).calls = [] := by rfl

example :
    (logout ⟨"u", some "a1", some "r1", 10⟩ 3
      ⟨200, "", "a2", "r2", 60⟩ 200).state.refresh_token = none := by rfl

/-! Helper lemmas -/

/-- A failed `refresh_access_token` leaves the credential state
untouched (every mutation in the Python method happens after the status
check that raises). -/
theorem refresh_error_state (s : ClientState) (now : Int)
    (resp : RefreshResp) (e : String)
    (h : (refresh_access_token s now resp).result = .error e) :
    (refresh_access_token s now resp).state = s := by
  cases hrt : s.refresh_token with
  | none => simp [refresh_access_token, hrt]
  | some rt =>
    by_cases hs : resp.status = 200
    · simp [refresh_access_token, hrt, hs] at h
    · simp [refresh_access_token, hrt, hs]

/-- A successful `refresh_access_token` stores both response tokens and
`now + expires_in`. -/
theorem refresh_ok_state (s : ClientState) (now : Int)
    (resp : RefreshResp)
    (h : (refresh_access_token s now resp).result = .ok ()) :
    (refresh_access_token s now resp).state =
      { s with access_token := some resp.access_token,
               refresh_token := some resp.refresh_token,
               token_expires_at := now + resp.expires_in } := by
  cases hrt : s.refresh_token with
  | none => simp [refresh_access_token, hrt] at h
  | some rt =>
    by_cases hs : resp.status = 200
    · simp [refresh_access_token, hrt, hs]
    · simp [refresh_access_token, hrt, hs] at h

/-- Lemma: `_get_headers` reports exactly the state and network calls of the
`_ensure_authenticated` call it makes. -/
theorem get_headers_state_calls (s : ClientState) (now : Int)
    (resp : RefreshResp) :
    (get_headers s now resp).state = (ensure_authenticated s now resp).state
    ∧ (get_headers s now resp).calls
        = (ensure_authenticated s now resp).calls := by
  unfold get_headers
  cases h : (ensure_authenticated s now resp).result <;> simp [h]

/-! Claim theorems -/

/-- C5: in every state without a refresh token, `refresh_access_token`
fails with the local "no refresh token" error, makes zero network
calls, and leaves the credential state unchanged. -/
theorem c5_refresh_without_token_is_local (s : ClientState) (now : Int)
    (resp : RefreshResp) (h : s.refresh_token = none) :
    refresh_access_token s now resp
      = ⟨s, .error "No refresh token available", []⟩ := by
  simp [refresh_access_token, h]

/-- Witness for C5: a freshly constructed client refreshing with no
prior login. -/
theorem c5_refresh_without_token_is_local_witness :
    refresh_access_token (ClientState.init "http://localhost:3000") 0
        ⟨200, "", "a", "r", 60⟩
      = ⟨ClientState.init "http://localhost:3000",
          .error "No refresh token available", []⟩ :=
  c5_refresh_without_token_is_local
    (ClientState.init "http://localhost:3000") 0 ⟨200, "", "a", "r", 60⟩ rfl

/-- C6: with a refresh token held, a rejected refresh exchange fails
with an error carrying the server's message, leaves the entire prior
credential state unchanged, and a subsequent `_ensure_authenticated` on
a state satisfying the refresh condition performs the network refresh
again (sending the same, still-stored refresh token). -/
theorem c6_refresh_rejected_preserves_state (s : ClientState) (now : Int)
    (resp : RefreshResp) (rt : String) (hrt : s.refresh_token = some rt)
    (hst : resp.status ≠ 200) :
    refresh_access_token s now resp
      = ⟨s, .error ("Token refresh failed: " ++ resp.text),
          [.refreshCall rt]⟩
    ∧ ∀ (now2 : Int) (resp2 : RefreshResp), needsRefresh s now2 →
        (ensure_authenticated s now2 resp2).calls = [.refreshCall rt] := by
  constructor
  · simp [refresh_access_token, hrt, hst]
  · intro now2 resp2 h2
    rw [ensure_authenticated, if_pos h2]
    by_cases hs2 : resp2.status = 200 <;>
      simp [refresh_access_token, hrt, hs2]

/-- Witness for C6: an expired state whose refresh is answered with
status 401; the state survives untouched and a later attempt refreshes
again. -/
theorem c6_refresh_rejected_preserves_state_witness :
    refresh_access_token ⟨"u", some "a1", some "r1", 10⟩ 15
        ⟨401, "expired", "", "", 0⟩
      = ⟨⟨"u", some "a1", some "r1", 10⟩,
          .error "Token refresh failed: expired", [.refreshCall "r1"]⟩
    ∧ (ensure_authenticated ⟨"u", some "a1", some "r1", 10⟩ 16
        ⟨401, "expired", "", "", 0⟩).calls = [.refreshCall "r1"] := by
  have h := c6_refresh_rejected_preserves_state
    ⟨"u", some "a1", some "r1", 10⟩ 15 ⟨401, "expired", "", "", 0⟩ "r1"
    rfl (by decide)
  exact ⟨h.1, h.2 16 ⟨401, "expired", "", "", 0⟩ (by right; decide)⟩

/-- C7: a login answered with any non-success status fails with an
error carrying the server's message and leaves the entire prior
credential state (both tokens and the expiry) untouched. -/
theorem c7_login_failure_preserves_state (s : ClientState) (now : Int)
    (resp : LoginResp) (hst : resp.status ≠ 200) :
    login s now resp
      = ⟨s, .error ("Login failed: " ++ resp.text), [.loginCall]⟩ := by
  simp [login, hst]

/-- Witness for C7: a failed login against a state holding a valid
session leaves that session intact. -/
theorem c7_login_failure_preserves_state_witness :
    login ⟨"u", some "a1", some "r1", 100⟩ 5
        ⟨403, "bad password", "x", "y", 60, 3600, "alice"⟩
      = ⟨⟨"u", some "a1", some "r1", 100⟩,
          .error "Login failed: bad password", [.loginCall]⟩ :=
  c7_login_failure_preserves_state ⟨"u", some "a1", some "r1", 100⟩ 5
    ⟨403, "bad password", "x", "y", 60, 3600, "alice"⟩ (by decide)

/-- C9: after a successful login and after a successful refresh, the
stored expiry equals `now + expires_in` taken from that response's
declared lifetime. -/
theorem c9_expiry_from_response (s : ClientState) (now : Int)
    (lresp : LoginResp) (rresp : RefreshResp) :
    (lresp.status = 200 →
      (login s now lresp).result = .ok ()
      ∧ (login s now lresp).state.token_expires_at
          = now + lresp.expires_in)
    ∧ (∀ rt, s.refresh_token = some rt → rresp.status = 200 →
        (refresh_access_token s now rresp).result = .ok ()
        ∧ (refresh_access_token s now rresp).state.token_expires_at
            = now + rresp.expires_in) := by
  constructor
  · intro h
    simp [login, h]
  · intro rt hrt h
    simp [refresh_access_token, hrt, h]

/-- Witness for C9: a successful login at time 5 with lifetime 60, and
a successful refresh at time 5 with lifetime 30. -/
theorem c9_expiry_from_response_witness :
    (login (ClientState.init "u") 5
        ⟨200, "", "a1", "r1", 60, 3600, "alice"⟩).state.token_expires_at
      = 5 + 60
    ∧ (refresh_access_token ⟨"u", some "a1", some "r1", 65⟩ 70
        ⟨200, "", "a2", "r2", 30⟩).state.token_expires_at = 70 + 30 := by
  have h := c9_expiry_from_response (ClientState.init "u") 5
    ⟨200, "", "a1", "r1", 60, 3600, "alice"⟩ ⟨200, "", "a2", "r2", 30⟩
  have h2 := c9_expiry_from_response ⟨"u", some "a1", some "r1", 65⟩ 70
    ⟨200, "", "a1", "r1", 60, 3600, "alice"⟩ ⟨200, "", "a2", "r2", 30⟩
  exact ⟨(h.1 rfl).2, (h2.2 "r1" rfl rfl).2⟩

/-- C4: `_get_headers` refreshes exactly when the access token is
absent or `now >= token_expires_at`: on a non-expired state it performs
no refresh and returns the bearer headers for the stored token; when the
condition holds it makes exactly the network calls of
`refresh_access_token`, propagates a refresh error unchanged, and on
refresh success returns the bearer headers for the refreshed token. -/
theorem c4_get_headers_policy (s : ClientState) (now : Int)
    (resp : RefreshResp) :
    (¬ needsRefresh s now →
      get_headers s now resp
        = ⟨s, .ok [("Content-Type", "application/json"),
                   ("Authorization", "Bearer " ++ pyStr s.access_token)],
            []⟩)
    ∧ (needsRefresh s now →
        (get_headers s now resp).calls
          = (refresh_access_token s now resp).calls)
    ∧ (∀ e, needsRefresh s now →
        (refresh_access_token s now resp).result = .error e →
        (get_headers s now resp).result = .error e)
    ∧ (needsRefresh s now →
        (refresh_access_token s now resp).result = .ok () →
        get_headers s now resp
          = ⟨(refresh_access_token s now resp).state,
              .ok [("Content-Type", "application/json"),
                   ("Authorization", "Bearer " ++ pyStr
                      (refresh_access_token s now resp).state.access_token)],
              (refresh_access_token s now resp).calls⟩) := by
  refine ⟨?_, ?_, ?_, ?_⟩
  · intro h
    simp [get_headers, ensure_authenticated, if_neg h]
  · intro h
    rw [get_headers, ensure_authenticated, if_pos h]
    cases hres : (refresh_access_token s now resp).result <;> simp [hres]
  · intro e h hres
    rw [get_headers, ensure_authenticated, if_pos h]
    simp [hres]
  · intro h hres
    rw [get_headers, ensure_authenticated, if_pos h]
    simp [hres]

/-- Witness for C4: an expired state whose refresh succeeds; the
returned headers bear the refreshed access token and one refresh
exchange was made. -/
theorem c4_get_headers_policy_witness :
    get_headers ⟨"u", some "a1", some "r1", 10⟩ 10 ⟨200, "", "a2", "r2", 60⟩
      = ⟨⟨"u", some "a2", some "r2", 70⟩,
          .ok [("Content-Type", "application/json"),
               ("Authorization", "Bearer a2")],
          [.refreshCall "r1"]⟩ := by
  have h := (c4_get_headers_policy ⟨"u", some "a1", some "r1", 10⟩ 10
    ⟨200, "", "a2", "r2", 60⟩).2.2.2 (by right; decide) (by rfl)
  simpa using h

/-- C3 counterexample: with an expired state and a successful refresh
response declaring `expires_in = 0`, `_get_headers` returns headers even
though the stored expiry (5) is not strictly later than the call time
(5): the claim as stated fails on the code. -/
theorem c3_counterexample :
    (get_headers ⟨"u", some "a1", some "r1", 5⟩ 5
        ⟨200, "", "a2", "r2", 0⟩).result
      = .ok [("Content-Type", "application/json"),
             ("Authorization", "Bearer a2")]
    ∧ ¬ (5 < (get_headers ⟨"u", some "a1", some "r1", 5⟩ 5
          ⟨200, "", "a2", "r2", 0⟩).state.token_expires_at) := by
  constructor
  · rfl
  · decide

/-- C3 amended: provided every successful refresh response declares a
strictly positive `expires_in`, whenever `_get_headers` returns headers
the stored expiry is strictly later than the call time. -/
theorem c3_headers_not_expired (s : ClientState) (now : Int)
    (resp : RefreshResp) (hpos : 0 < resp.expires_in)
    (hdrs : List (String × String))
    (hok : (get_headers s now resp).result = .ok hdrs) :
    now < (get_headers s now resp).state.token_expires_at := by
  rw [(get_headers_state_calls s now resp).1]
  by_cases h : needsRefresh s now
  · rw [ensure_authenticated, if_pos h]
    have hres : (refresh_access_token s now resp).result = .ok () := by
      rw [get_headers, ensure_authenticated, if_pos h] at hok
      cases hres : (refresh_access_token s now resp).result with
      | error e => rw [hres] at hok; simp at hok
      | ok u => rfl
    rw [refresh_ok_state s now resp hres]
    dsimp only
    omega
  · rw [ensure_authenticated, if_neg h]
    rw [needsRefresh] at h
    push_neg at h
    exact h.2

/-- Witness for the C3 amended theorem: a successful refresh at time 10
with lifetime 60 yields headers and an expiry strictly after 10. -/
theorem c3_headers_not_expired_witness :
    (0 : Int) < 60
    ∧ 10 < (get_headers ⟨"u", some "a1", some "r1", 10⟩ 10
        ⟨200, "", "a2", "r2", 60⟩).state.token_expires_at := by
  refine ⟨by decide, ?_⟩
  exact c3_headers_not_expired ⟨"u", some "a1", some "r1", 10⟩ 10
    ⟨200, "", "a2", "r2", 60⟩ (by decide)
    [("Content-Type", "application/json"), ("Authorization", "Bearer a2")]
    (by rfl)

/-- C1 counterexample: with a refresh token held but the access token
expired, and the refresh exchange rejected (status 401), `logout`
propagates the refresh error to the caller and clears nothing: the
claim that logout always clears both tokens and never fails fatally is
false on the code. -/
theorem c1_counterexample :
    (⟨"u", some "a1", some "r1", 5⟩ : ClientState).refresh_token
      = some "r1"
    ∧ logout ⟨"u", some "a1", some "r1", 5⟩ 9
        ⟨401, "unauthorized", "", "", 0⟩ 200
      = ⟨⟨"u", some "a1", some "r1", 5⟩,
          .error "Token refresh failed: unauthorized",
          [.refreshCall "r1"]⟩ :=
  ⟨rfl, rfl⟩

/-- C1 amended: for every state holding a refresh token, when
`_get_headers` succeeds (access token unexpired, or the implicit
refresh succeeds), `logout` clears both tokens and returns normally
regardless of the revoke call's status; when `_get_headers` fails, its
error propagates out of `logout` and the prior credential state is left
unchanged (nothing is cleared). -/
theorem c1_logout_clears_when_headers_ok (s : ClientState) (now : Int)
    (rResp : RefreshResp) (revokeStatus : Nat)
    (hrt : s.refresh_token.isSome) :
    (∀ hdrs, (get_headers s now rResp).result = .ok hdrs →
      (logout s now rResp revokeStatus).state
        = { (get_headers s now rResp).state with
            access_token := none, refresh_token := none }
      ∧ (logout s now rResp revokeStatus).result = .ok ())
    ∧ (∀ e, (get_headers s now rResp).result = .error e →
        (logout s now rResp revokeStatus).result = .error e
        ∧ (logout s now rResp revokeStatus).state = s) := by
  obtain ⟨rt, hsome⟩ := Option.isSome_iff_exists.mp hrt
  constructor
  · intro hdrs hok
    rw [logout, hsome]
    simp only [hok]
    exact ⟨trivial, trivial⟩
  · intro e herr
    rw [logout, hsome]
    simp only [herr]
    refine ⟨trivial, ?_⟩
    have hens : (ensure_authenticated s now rResp).result = .error e := by
      rw [get_headers] at herr
      cases hres : (ensure_authenticated s now rResp).result with
      | error e2 => rw [hres] at herr; simpa using herr
      | ok u => rw [hres] at herr; simp at herr
    rw [(get_headers_state_calls s now rResp).1]
    rw [ensure_authenticated] at hens ⊢
    by_cases h : needsRefresh s now
    · rw [if_pos h] at hens ⊢
      exact refresh_error_state s now rResp e hens
    · rw [if_neg h]

/-- Witness for the C1 amended theorem: a valid session logging out
while the revoke call is answered with status 500 still ends
unauthenticated with a normal return. -/
theorem c1_logout_clears_when_headers_ok_witness :
    (logout ⟨"u", some "a1", some "r1", 100⟩ 5
        ⟨401, "x", "", "", 0⟩ 500).state = ⟨"u", none, none, 100⟩
    ∧ (logout ⟨"u", some "a1", some "r1", 100⟩ 5
        ⟨401, "x", "", "", 0⟩ 500).result = .ok () := by
  have h := (c1_logout_clears_when_headers_ok
      ⟨"u", some "a1", some "r1", 100⟩ 5 ⟨401, "x", "", "", 0⟩ 500
      (by decide)).1
    [("Content-Type", "application/json"), ("Authorization", "Bearer a1")]
    (by rfl)
  exact ⟨h.1, h.2⟩

/-- C2 counterexample: from an expired state, the interleaving in which
both threads evaluate the refresh condition of line 82 before either
refreshes makes both observe an expired token and then perform two
network refresh exchanges — the code has no mutual exclusion, so the
at-most-one-refresh claim is false on it. -/
theorem c2_counterexample :
    (runConc ⟨"u", some "a1", some "r1", 5⟩ 9 ⟨200, "", "a2", "r2", 60⟩
        [false, true]).pc1 = Pc.needRefreshPc
    ∧ (runConc ⟨"u", some "a1", some "r1", 5⟩ 9 ⟨200, "", "a2", "r2", 60⟩
        [false, true]).pc2 = Pc.needRefreshPc
    ∧ (runConc ⟨"u", some "a1", some "r1", 5⟩ 9 ⟨200, "", "a2", "r2", 60⟩
        [false, true, false, true]).refreshCalls = 2
    ∧ ¬ atMostOneRefreshProp ⟨"u", some "a1", some "r1", 5⟩ 9
        ⟨200, "", "a2", "r2", 60⟩ := by
  refine ⟨by decide, by decide, by decide, fun h => ?_⟩
  exact absurd (h [false, true, false, true]) (by decide)

/-- C2 amended: the code serializes nothing, so at most one refresh
exchange is guaranteed only for non-interleaved executions: if the two
`_ensure_authenticated` calls run one after the other from a state
needing refresh, with a refresh token held and a successful refresh
response of positive lifetime, exactly one network refresh exchange is
performed and the second caller reuses its result. -/
theorem c2_serialized_single_refresh (s : ClientState) (now : Int)
    (resp : RefreshResp) (h1 : needsRefresh s now)
    (h2 : s.refresh_token.isSome) (h3 : resp.status = 200)
    (h4 : 0 < resp.expires_in) :
    (runConc s now resp [false, false, true, true]).refreshCalls = 1 := by
  obtain ⟨rt, hrt⟩ := Option.isSome_iff_exists.mp h2
  have hr : refresh_access_token s now resp =
      ⟨{ s with access_token := some resp.access_token,
                refresh_token := some resp.refresh_token,
                token_expires_at := now + resp.expires_in },
        .ok (), [.refreshCall rt]⟩ := by
    simp [refresh_access_token, hrt, h3]
  have hnr : ¬ needsRefresh
      { s with access_token := some resp.access_token,
               refresh_token := some resp.refresh_token,
               token_expires_at := now + resp.expires_in } now := by
    rw [needsRefresh]
    push_neg
    exact ⟨by simp, by dsimp only; omega⟩
  simp [runConc, schedStep, threadStep, if_pos h1, hr, if_neg hnr]

/-- Witness for the C2 amended theorem: the serialized execution from a
concrete expired state performs exactly one refresh exchange. -/
theorem c2_serialized_single_refresh_witness :
    (runConc ⟨"u", some "a1", some "r1", 5⟩ 9 ⟨200, "", "a2", "r2", 60⟩
        [false, false, true, true]).refreshCalls = 1 :=
  c2_serialized_single_refresh ⟨"u", some "a1", some "r1", 5⟩ 9
    ⟨200, "", "a2", "r2", 60⟩ (by right; decide) (by decide) rfl (by decide)

/-- If the state does not hold `t` and the login response does not
carry `t`, then after `login` the state still does not hold `t` and no
refresh exchange sent `t`. -/
theorem login_avoids (s : ClientState) (now : Int) (resp : LoginResp)
    (t : String) (hs : s.refresh_token ≠ some t)
    (hr : resp.refresh_token ≠ t) :
    (login s now resp).state.refresh_token ≠ some t
    ∧ ∀ c ∈ (login s now resp).calls, c ≠ NetCall.refreshCall t := by
  by_cases h : resp.status = 200 <;> simp [login, h, hs, hr]

/-- If the state does not hold `t` and the refresh response does not
carry `t`, then after `refresh_access_token` the state still does not
hold `t` and no refresh exchange sent `t`. -/
theorem refresh_avoids (s : ClientState) (now : Int) (resp : RefreshResp)
    (t : String) (hs : s.refresh_token ≠ some t)
    (hr : resp.refresh_token ≠ t) :
    (refresh_access_token s now resp).state.refresh_token ≠ some t
    ∧ ∀ c ∈ (refresh_access_token s now resp).calls,
        c ≠ NetCall.refreshCall t := by
  cases hrt : s.refresh_token with
  | none => simp [refresh_access_token, hrt, hs]
  | some rt =>
    have hne : rt ≠ t := by
      intro he
      exact hs (by rw [hrt, he])
    by_cases h : resp.status = 200 <;>
      simp [refresh_access_token, hrt, h, hr, hne]

/-- The avoidance property carries through `_ensure_authenticated`. -/
theorem ensure_avoids (s : ClientState) (now : Int) (resp : RefreshResp)
    (t : String) (hs : s.refresh_token ≠ some t)
    (hr : resp.refresh_token ≠ t) :
    (ensure_authenticated s now resp).state.refresh_token ≠ some t
    ∧ ∀ c ∈ (ensure_authenticated s now resp).calls,
        c ≠ NetCall.refreshCall t := by
  rw [ensure_authenticated]
  by_cases h : needsRefresh s now
  · rw [if_pos h]
    exact refresh_avoids s now resp t hs hr
  · rw [if_neg h]
    simpa using hs

/-- The avoidance property carries through `_get_headers`. -/
theorem get_headers_avoids (s : ClientState) (now : Int)
    (resp : RefreshResp) (t : String) (hs : s.refresh_token ≠ some t)
    (hr : resp.refresh_token ≠ t) :
    (get_headers s now resp).state.refresh_token ≠ some t
    ∧ ∀ c ∈ (get_headers s now resp).calls,
        c ≠ NetCall.refreshCall t := by
  obtain ⟨h1, h2⟩ := get_headers_state_calls s now resp
  rw [h1, h2]
  exact ensure_avoids s now resp t hs hr

/-- The avoidance property carries through `logout`. -/
theorem logout_avoids (s : ClientState) (now : Int) (rResp : RefreshResp)
    (revokeStatus : Nat) (t : String) (hs : s.refresh_token ≠ some t)
    (hr : rResp.refresh_token ≠ t) :
    (logout s now rResp revokeStatus).state.refresh_token ≠ some t
    ∧ ∀ c ∈ (logout s now rResp revokeStatus).calls,
        c ≠ NetCall.refreshCall t := by
  rw [logout]
  cases hrt : s.refresh_token with
  | none => simp [hrt]
  | some rt =>
    obtain ⟨hgs, hgc⟩ := get_headers_avoids s now rResp t hs hr
    cases hres : (get_headers s now rResp).result with
    | error e => simpa [hres] using ⟨hgs, hgc⟩
    | ok hdrs =>
      simp only [hres]
      refine ⟨by simp, ?_⟩
      intro c hc
      rw [List.mem_append] at hc
      rcases hc with hc | hc
      · exact hgc c hc
      · simp only [List.mem_singleton] at hc
        rw [hc]
        simp

/-- One `step` preserves the avoidance property when the operation's
responses avoid `t`. -/
theorem step_avoids (s : ClientState) (op : Op) (t : String)
    (hs : s.refresh_token ≠ some t) (hop : respAvoids t op) :
    (step s op).1.refresh_token ≠ some t
    ∧ ∀ c ∈ (step s op).2, c ≠ NetCall.refreshCall t := by
  cases op with
  | opLogin now resp => exact login_avoids s now resp t hs hop
  | opRefresh now resp => exact refresh_avoids s now resp t hs hop
  | opEnsureValid now resp => exact get_headers_avoids s now resp t hs hop
  | opLogout now rResp revokeStatus =>
    exact logout_avoids s now rResp revokeStatus t hs hop

/-- A whole run preserves the avoidance property when every operation's
responses avoid `t`. -/
theorem run_avoids (t : String) (ops : List Op) (s : ClientState)
    (hs : s.refresh_token ≠ some t)
    (hops : ∀ op ∈ ops, respAvoids t op) :
    (run s ops).1.refresh_token ≠ some t
    ∧ ∀ c ∈ (run s ops).2, c ≠ NetCall.refreshCall t := by
  induction ops generalizing s with
  | nil => simpa [run] using hs
  | cons op rest ih =>
    have hop : respAvoids t op := hops op (by simp)
    have hrest : ∀ o ∈ rest, respAvoids t o := by
      intro o ho
      exact hops o (by simp [ho])
    obtain ⟨h1, h2⟩ := step_avoids s op t hs hop
    obtain ⟨h3, h4⟩ := ih (step s op).1 h1 hrest
    rw [run]
    refine ⟨h3, ?_⟩
    intro c hc
    rw [List.mem_append] at hc
    rcases hc with hc | hc
    · exact h2 c hc
    · exact h4 c hc

/-- C8: after a successful refresh that consumed `t` and returned a
different refresh token, the stored refresh token equals the response's
new token, and — provided the server never re-issues `t` in any later
response, which is the rotation guarantee — no refresh exchange of any
subsequent operation sequence ever sends `t` again. -/
theorem c8_rotation_holds (s : ClientState) (now : Int)
    (resp : RefreshResp) (t : String) (post : List Op)
    (hrt : s.refresh_token = some t) (hst : resp.status = 200)
    (hnew : resp.refresh_token ≠ t)
    (hpost : ∀ op ∈ post, respAvoids t op) :
    (refresh_access_token s now resp).state.refresh_token
      = some resp.refresh_token
    ∧ ∀ c ∈ (run (refresh_access_token s now resp).state post).2,
        c ≠ NetCall.refreshCall t := by
  have hstate : (refresh_access_token s now resp).state.refresh_token
      = some resp.refresh_token := by
    simp [refresh_access_token, hrt, hst]
  refine ⟨hstate, ?_⟩
  have hne : (refresh_access_token s now resp).state.refresh_token
      ≠ some t := by
    rw [hstate]
    simpa using hnew
  exact (run_avoids t post (refresh_access_token s now resp).state
    hne hpost).2

/-- Witness for C8: a concrete successful refresh consuming "r1",
followed by an `ensure_valid`, a failed refresh, and a logout, none of
which sends "r1" again. -/
theorem c8_rotation_holds_witness :
    (refresh_access_token ⟨"u", some "a1", some "r1", 5⟩ 9
        ⟨200, "", "a2", "r2", 60⟩).state.refresh_token = some "r2"
    ∧ ∀ c ∈ (run (refresh_access_token ⟨"u", some "a1", some "r1", 5⟩ 9
          ⟨200, "", "a2", "r2", 60⟩).state
        [Op.opEnsureValid 100 ⟨200, "", "a3", "r3", 60⟩,
         Op.opRefresh 200 ⟨401, "revoked", "", "", 0⟩,
         Op.opLogout 300 ⟨200, "", "a4", "r4", 60⟩ 200]).2,
        c ≠ NetCall.refreshCall "r1" :=
  c8_rotation_holds ⟨"u", some "a1", some "r1", 5⟩ 9
    ⟨200, "", "a2", "r2", 60⟩ "r1"
    [Op.opEnsureValid 100 ⟨200, "", "a3", "r3", 60⟩,
     Op.opRefresh 200 ⟨401, "revoked", "", "", 0⟩,
     Op.opLogout 300 ⟨200, "", "a4", "r4", 60⟩ 200]
    rfl rfl (by decide) (by decide)

/-- Lemma: `login` preserves the tokens-together invariant on both its success
and failure paths. -/
theorem login_together (s : ClientState) (now : Int) (resp : LoginResp)
    (h : tokensTogether s) :
    tokensTogether (login s now resp).state := by
  by_cases hs : resp.status = 200
  · simp [login, hs, tokensTogether]
  · simpa [login, hs] using h

/-- Lemma: `refresh_access_token` preserves the tokens-together invariant on
all three of its paths. -/
theorem refresh_together (s : ClientState) (now : Int)
    (resp : RefreshResp) (h : tokensTogether s) :
    tokensTogether (refresh_access_token s now resp).state := by
  cases hrt : s.refresh_token with
  | none => simp only [refresh_access_token, hrt]; exact h
  | some rt =>
    have h2 : s.access_token.isSome = true := by
      rw [tokensTogether, hrt] at h
      simpa using h
    by_cases hs : resp.status = 200 <;>
      simp [refresh_access_token, hrt, hs, tokensTogether, h2]

/-- Lemma: `_ensure_authenticated` preserves the tokens-together invariant. -/
theorem ensure_together (s : ClientState) (now : Int)
    (resp : RefreshResp) (h : tokensTogether s) :
    tokensTogether (ensure_authenticated s now resp).state := by
  rw [ensure_authenticated]
  by_cases hn : needsRefresh s now
  · rw [if_pos hn]
    exact refresh_together s now resp h
  · rw [if_neg hn]
    exact h

/-- Lemma: `logout` preserves the tokens-together invariant on its no-op,
error, and clearing paths. -/
theorem logout_together (s : ClientState) (now : Int)
    (rResp : RefreshResp) (revokeStatus : Nat) (h : tokensTogether s) :
    tokensTogether (logout s now rResp revokeStatus).state := by
  rw [logout]
  cases hrt : s.refresh_token with
  | none => exact h
  | some rt =>
    cases hres : (get_headers s now rResp).result with
    | error e =>
      simp only [hres]
      rw [(get_headers_state_calls s now rResp).1]
      exact ensure_together s now rResp h
    | ok hdrs =>
      simp only [hres]
      rfl

/-- C10: the tokens-together invariant holds of the initial state, is
preserved by every operation on every path, and therefore holds of
every reachable state. -/
theorem c10_tokens_together_invariant :
    (∀ u, tokensTogether (ClientState.init u))
    ∧ (∀ s op, tokensTogether s → tokensTogether (step s op).1)
    ∧ (∀ u ops, tokensTogether (run (ClientState.init u) ops).1) := by
  have hstep : ∀ s op, tokensTogether s → tokensTogether (step s op).1 := by
    intro s op h
    cases op with
    | opLogin now resp => exact login_together s now resp h
    | opRefresh now resp => exact refresh_together s now resp h
    | opEnsureValid now resp =>
      have := get_headers_state_calls s now resp
      show tokensTogether (get_headers s now resp).state
      rw [this.1]
      exact ensure_together s now resp h
    | opLogout now rResp revokeStatus =>
      exact logout_together s now rResp revokeStatus h
  have hrun : ∀ ops s, tokensTogether s → tokensTogether (run s ops).1 := by
    intro ops
    induction ops with
    | nil => intro s h; exact h
    | cons op rest ih =>
      intro s h
      rw [run]
      exact ih (step s op).1 (hstep s op h)
  exact ⟨fun u => rfl, hstep, fun u ops => hrun ops (ClientState.init u) rfl⟩

/-- Witness for C10: one logout step on a concrete authenticated state
keeps the tokens together, and a concrete mixed run from construction
ends with them together. -/
theorem c10_tokens_together_invariant_witness :
    tokensTogether (step ⟨"u", some "a1", some "r1", 5⟩
      (Op.opLogout 9 ⟨401, "x", "", "", 0⟩ 200)).1
    ∧ tokensTogether (run (ClientState.init "u")
        [Op.opLogin 0 ⟨200, "", "a1", "r1", 60, 3600, "alice"⟩,
         Op.opEnsureValid 100 ⟨200, "", "a2", "r2", 60⟩,
         Op.opLogout 200 ⟨401, "x", "", "", 0⟩ 200]).1 :=
  ⟨c10_tokens_together_invariant.2.1 ⟨"u", some "a1", some "r1", 5⟩
      (Op.opLogout 9 ⟨401, "x", "", "", 0⟩ 200) rfl,
    c10_tokens_together_invariant.2.2 "u"
      [Op.opLogin 0 ⟨200, "", "a1", "r1", 60, 3600, "alice"⟩,
       Op.opEnsureValid 100 ⟨200, "", "a2", "r2", 60⟩,
       Op.opLogout 200 ⟨401, "x", "", "", 0⟩ 200]⟩
